import Mathlib

/-!
Verification of the command-line adapter in `scripts/scropt.py`.

The script parses arguments (objective, budget, hrprop, landscape, method,
optional secondary, optional sconstrval), validates them, constructs either
`SCRoptProblem.Problem` or `SCRoptProblem.ParetoProblem`, builds a
runtime-parameters dictionary and calls `problem.runcplex(runtimeparams)`.

Embedding conventions:
* Python floats are modelled as `ℚ` (all float values exercised by the
  claims are exact decimals); `str(float)` is modelled by `pyFloatStr`.
* `argparse` optional flags (`-secondary`, `-sconstrval`) are `Option`
  fields of `Args`; required flags are plain fields.
* A run is an `Except String RunTrace`: a raised `ValueError msg` becomes
  `.error msg`; a completed run is `.ok` carrying the constructed problem
  object and the `runtimeparams` dictionary passed to `runcplex`
  (the dictionary is modelled as an association list in insertion order).
* Python-2 `print` statements are pure output and are not modelled.
* Python string membership `x in "cplex"` is substring containment,
  modelled by `strHasSub`; truthiness of optional values is modelled by
  the `= ""` / `= 0` tests exactly where the source tests truthiness.
-/

deriving instance DecidableEq for Except

namespace Scropt

/-- `leadsWith p l` is true when the list `p` is an initial segment of `l`
(used to model Python string operations on `String.data`). -/
def leadsWith : List Char → List Char → Bool
  | [], _ => true
  | _ :: _, [] => false
  | c :: cs, d :: ds => c == d && leadsWith cs ds

/-- `hasSubL sub l` is true when `sub` occurs contiguously inside `l`
(Python's `sub in l` on strings). -/
def hasSubL (sub : List Char) : List Char → Bool
  | [] => sub.isEmpty
  | d :: ds => leadsWith sub (d :: ds) || hasSubL sub ds

/-- Python substring test `sub in s`. -/
def strHasSub (sub s : String) : Bool := hasSubL sub.data s.data

/-- Python `s.startswith(p)` (used to state path-layout properties). -/
def strLeadsW (p s : String) : Bool := leadsWith p.data s.data

/-- Python `s.endswith(p)` (used to state filename properties). -/
def strEndsW (p s : String) : Bool := leadsWith p.data.reverse s.data.reverse

/-- Decimal digits of the proper fraction `n / d` (with `n < d`), by long
division, up to `fuel` digits (enough for every decimal-exact float in
scope). -/
def fracDigitsN : Nat → Nat → Nat → List Char
  | 0, _, _ => []
  | fuel + 1, n, d =>
    if n = 0 then []
    else Char.ofNat (48 + 10 * n / d) :: fracDigitsN fuel (10 * n % d) d

/-- Models Python `str()` applied to a float: sign, integer part, a dot,
and the fractional digits (at least one, so `str(500.0) = "500.0"`).
Exact for the decimal-exact values exercised by the script's filenames. -/
def pyFloatStr (q : ℚ) : String :=
  let sign : String := if q.num < 0 then "-" else ""
  let na : Nat := q.num.natAbs
  let ds := fracDigitsN 17 (na % q.den) q.den
  sign ++ Nat.repr (na / q.den) ++ "." ++ (if ds.isEmpty then "0" else String.mk ds)

/-- Models Python `str()` applied to an optional float argument:
`str(None) = "None"`. -/
def pyOptFloatStr : Option ℚ → String
  | none => "None"
  | some v => pyFloatStr v

/-- The parsed command-line arguments of `scropt.py` (post-`argparse`):
`-objective -budget -hrprop -landscape -method` are required,
`-secondary -sconstrval` default to `None`. -/
structure Args where
  objective : String
  budget : ℚ
  hrprop : ℚ
  landscape : String
  method : String
  secondary : Option String
  sconstrval : Option ℚ
deriving DecidableEq

/-- A runtime-parameter value: the dictionary in the source holds strings
(paths) and integers (timelimit, randomseed, workmem). -/
inductive RTValue where
  | str : String → RTValue
  | int : Int → RTValue
deriving DecidableEq

/-- The problem object constructed by the script: either
`SCRoptProblem.Problem(objective, budget, hrprop, landscape, method)` or
`SCRoptProblem.ParetoProblem(..., secondary, sconstrval)`. -/
inductive SCRoptProblem where
  | Problem (objective : String) (budget hrprop : ℚ) (landscape method : String)
  | ParetoProblem (objective : String) (budget hrprop : ℚ)
      (landscape method secondary : String) (sconstrval : Option ℚ)
deriving DecidableEq

/-- Budget carried by a constructed problem object. -/
def SCRoptProblem.budgetOf : SCRoptProblem → ℚ
  | .Problem _ b _ _ _ => b
  | .ParetoProblem _ b _ _ _ _ _ => b

/-- The observable outcome of a run that did not raise: the problem object
constructed and the `runtimeparams` dictionary handed to `runcplex`. -/
structure RunTrace where
  problem : SCRoptProblem
  runtimeparams : List (String × RTValue)
deriving DecidableEq

/-- The eight keys the defensive check at the end of `main` requires. -/
def requiredKeys : List String :=
  ["cplexpath", "timelimit", "randomseed", "workmem",
   "logfiledir", "logfilename", "resultfilename", "workdir"]

/-- `all (k in runtimeparams.keys() for k in (...))` from the source. -/
def keysComplete (ps : List (String × RTValue)) : Bool :=
  requiredKeys.all fun k => ps.any fun kv => kv.1 == k

/-- Log-file directory hardcoded in the source (both branches). -/
def logfileDir : String :=
  "/home/fs01/ag2373/LandscapeConnectivity/SCROPT/output/logfiles/"

/-- Result directory of the standard branch (line 53). -/
def resBudgetDir : String :=
  "/home/fs01/ag2373/LandscapeConnectivity/SCROPT/output/results/budget/"

/-- Result directory of the pareto branch (line 50). -/
def resParetoDir : String :=
  "/home/fs01/ag2373/LandscapeConnectivity/SCROPT/output/results/pareto/"

/-- `logfilename` of the standard branch:
`logfiledir + landscape + '_' + objective + '_' + str(budget) + '.log'`. -/
def stdLogName (landscape objective : String) (budget : ℚ) : String :=
  logfileDir ++ landscape ++ "_" ++ objective ++ "_" ++ pyFloatStr budget ++ ".log"

/-- `resultfilename` of the standard branch. -/
def stdResName (landscape objective : String) (budget : ℚ) : String :=
  resBudgetDir ++ landscape ++ "_" ++ objective ++ "_" ++ pyFloatStr budget ++ ".txt"

/-- `logfilename` of the pareto branch: the standard pieces followed by
`'_pareto_' + secondary + '_' + str(sconstrval) + '.log'`. -/
def paretoLogName (landscape objective : String) (budget : ℚ)
    (secondary : String) (sconstrval : Option ℚ) : String :=
  logfileDir ++ landscape ++ "_" ++ objective ++ "_" ++ pyFloatStr budget
    ++ "_pareto_" ++ secondary ++ "_" ++ pyOptFloatStr sconstrval ++ ".log"

/-- `resultfilename` of the pareto branch: under the `pareto/` result
directory, with `'_' + secondary + '_' + str(sconstrval)` in the name. -/
def paretoResName (landscape objective : String) (budget : ℚ)
    (secondary : String) (sconstrval : Option ℚ) : String :=
  resParetoDir ++ landscape ++ "_" ++ objective ++ "_" ++ pyFloatStr budget
    ++ "_" ++ secondary ++ "_" ++ pyOptFloatStr sconstrval ++ ".txt"

/-- The `runtimeparams` dictionary built on the standard (non-pareto)
branch of the source (line 53), in insertion order. -/
def stdParams (landscape objective : String) (budget : ℚ) :
    List (String × RTValue) :=
  [("cplexpath", .str "/opt/ibm/ILOG/CPLEX_Studio126/cplex/bin/x86-64_linux/cplex"),
   ("timelimit", .int 432000),
   ("randomseed", .int 15),
   ("workmem", .int 20000),
   ("logfiledir", .str logfileDir),
   ("logfilename", .str (stdLogName landscape objective budget)),
   ("resultfilename", .str (stdResName landscape objective budget)),
   ("workdir", .str "/home/fs01/ag2373/LandscapeConnectivity/SCROPT/output/lpandsolfiles/")]

/-- The `runtimeparams` dictionary built on the pareto branch of the
source (line 50), in insertion order. -/
def paretoParams (landscape objective : String) (budget : ℚ)
    (secondary : String) (sconstrval : Option ℚ) : List (String × RTValue) :=
  [("cplexpath", .str "/opt/ibm/ILOG/CPLEX_Studio126/cplex/bin/x86-64_linux/cplex"),
   ("timelimit", .int 432000),
   ("randomseed", .int 15),
   ("workmem", .int 20000),
   ("logfiledir", .str logfileDir),
   ("logfilename", .str (paretoLogName landscape objective budget secondary sconstrval)),
   ("resultfilename", .str (paretoResName landscape objective budget secondary sconstrval)),
   ("workdir", .str "/home/fs01/ag2373/LandscapeConnectivity/SCROPT/output/lpandsolfiles/")]

/-- The standard branch of lines 52-53 and the defensive key check of
lines 54-55, then the `runcplex` call: constructs
`SCRoptProblem.Problem` and its `runtimeparams`. -/
def stdGo (a : Args) : Except String RunTrace :=
  let runtimeparams := stdParams a.landscape a.objective a.budget
  if keysComplete runtimeparams then
    .ok ⟨.Problem a.objective a.budget a.hrprop a.landscape a.method, runtimeparams⟩
  else
    .error "One or more runtimeparams missing. Need to provide:\ncplexpath\ntimelimit\nrandomseed\nworkmem\nlogfiledir\nlogfilename\nresultfilename\nworkdir."

/-- The pareto branch of lines 49-50 and the defensive key check, then the
`runcplex` call: constructs `SCRoptProblem.ParetoProblem`. `s` is the
(truthy) secondary objective string. -/
def paretoGo (a : Args) (s : String) : Except String RunTrace :=
  let runtimeparams := paretoParams a.landscape a.objective a.budget s a.sconstrval
  if keysComplete runtimeparams then
    .ok ⟨.ParetoProblem a.objective a.budget a.hrprop a.landscape a.method s a.sconstrval,
         runtimeparams⟩
  else
    .error "One or more runtimeparams missing. Need to provide:\ncplexpath\ntimelimit\nrandomseed\nworkmem\nlogfiledir\nlogfilename\nresultfilename\nworkdir."

/-- Lines 48-56 of the source: `if secondary:` (Python truthiness — `None`
and `""` are falsy) selects between the pareto and standard constructors. -/
def dispatch (a : Args) : Except String RunTrace :=
  match a.secondary with
  | some s => if s = "" then stdGo a else paretoGo a s
  | none => stdGo a

/-- The `main` of `scropt.py` after argument parsing (lines 29-56):
validation checks in source order, then problem construction and the
`runcplex` call. Note line 34 of the source reads
`if method not in ("cplex")`, where `("cplex")` is the *string*
`"cplex"`, so the test is substring membership, modelled by `strHasSub`.
Line 41 `elif not sconstrval` is float truthiness: `None` and `0.0` both
fail it. -/
def main (a : Args) : Except String RunTrace :=
  if a.objective ∉ (["rd", "pc", "dwc"] : List String) then
    .error "Invalid optimization objective requested. Please choose from: rd, pc, dwc."
  else if 1 < a.hrprop then
    .error "Only hrprop <= 1 has been implemented."
  else if strHasSub a.method "cplex" = false then
    .error "Only cplex solve method has been implemented."
  else
    match a.secondary with
    | some s =>
      if s = "" then dispatch a
      else if s ∉ (["rd", "pc", "dwc"] : List String) then
        .error "Invalid secondary optimization objective requested. Please choose from: rd, pc, dwc."
      else if s = a.objective then
        .error "Primary and secondary optimization objectives should not be the same."
      else if (match a.sconstrval with | none => true | some v => decide (v = 0)) then
        .error "Secondary optimization objective requires a constraint value."
      else dispatch a
    | none => dispatch a

/-- The problem object a run constructed (`none` when it raised). -/
def problemOf : Except String RunTrace → Option SCRoptProblem
  | .ok t => some t.problem
  | .error _ => none

/-- The `resultfilename` value of the dictionary passed to `runcplex`
(`none` when the run raised or the key is not a string). -/
def resultfileOf : Except String RunTrace → Option String
  | .ok t =>
    match t.runtimeparams.lookup "resultfilename" with
    | some (.str s) => some s
    | _ => none
  | .error _ => none

/-- The `logfilename` value of the dictionary passed to `runcplex`. -/
def logfileOf : Except String RunTrace → Option String
  | .ok t =>
    match t.runtimeparams.lookup "logfilename" with
    | some (.str s) => some s
    | _ => none
  | .error _ => none

/-- A runtime-parameter value is non-empty: a non-empty string, or an
integer. -/
def rtNonEmpty : RTValue → Prop
  | .str s => s ≠ ""
  | .int _ => True

/-! Helper lemmas about the string model. -/

theorem strDataApp (a b : String) : (a ++ b).data = a.data ++ b.data := by
  cases a; cases b; rfl

theorem strNeEmptyApp (x y : String) (hx : x ≠ "") : x ++ y ≠ "" := by
  intro he
  apply hx
  have hd := congrArg String.data he
  rw [strDataApp] at hd
  have hx0 : x.data = [] := (List.append_eq_nil.mp hd).1
  cases x with
  | mk d => cases hx0; rfl

theorem leadsWith_self_app (p r : List Char) : leadsWith p (p ++ r) = true := by
  induction p with
  | nil => rfl
  | cons c cs ih => simp [leadsWith, ih]

theorem hasSubL_of_leads {sub l : List Char} (h : leadsWith sub l = true) :
    hasSubL sub l = true := by
  cases l with
  | nil =>
    cases sub with
    | nil => rfl
    | cons c cs => simp [leadsWith] at h
  | cons d ds => simp [hasSubL, h]

theorem hasSubL_appL {sub l : List Char} (a : List Char)
    (h : hasSubL sub l = true) : hasSubL sub (a ++ l) = true := by
  induction a with
  | nil => simpa using h
  | cons c cs ih => simp [hasSubL, ih]

theorem leadsWith_appR {p l : List Char} (r : List Char)
    (h : leadsWith p l = true) : leadsWith p (l ++ r) = true := by
  induction p generalizing l with
  | nil => rfl
  | cons c cs ih =>
    cases l with
    | nil => simp [leadsWith] at h
    | cons d ds =>
      simp only [leadsWith, Bool.and_eq_true] at h ⊢
      exact ⟨h.1, ih h.2⟩

theorem hasSubL_appR {sub l : List Char} (r : List Char)
    (h : hasSubL sub l = true) : hasSubL sub (l ++ r) = true := by
  induction l with
  | nil =>
    simp only [hasSubL, List.isEmpty_iff] at h
    cases h
    cases r with
    | nil => rfl
    | cons d ds => simp [hasSubL, leadsWith]
  | cons d ds ih =>
    simp only [hasSubL, Bool.or_eq_true] at h
    rcases h with h | h
    · simp only [List.cons_append, hasSubL, Bool.or_eq_true]
      exact Or.inl (leadsWith_appR r h)
    · simp only [List.cons_append, hasSubL, Bool.or_eq_true]
      exact Or.inr (ih h)

/-- Both inline dictionaries satisfy the defensive key check, so the
construction step never takes the missing-keys branch. -/
theorem dispatch_ok (a : Args) : ∃ t, dispatch a = .ok t := by
  unfold dispatch
  cases a.secondary with
  | none => exact ⟨_, rfl⟩
  | some s =>
    dsimp only
    by_cases hse : s = ""
    · rw [if_pos hse]
      exact ⟨_, rfl⟩
    · rw [if_neg hse]
      exact ⟨_, rfl⟩

/-! Claim theorems. -/

/-- C1: the claim states that every method value other than `"cplex"` is
rejected before any problem object is constructed or `runcplex` is
called. The code violates this: line 34 reads `if method not in
("cplex")`, and `("cplex")` is the *string* `"cplex"` (the tuple comma is
missing), so the test is substring membership. The method value `"plex"`
is a proper substring of `"cplex"`, so validation passes, a standard
problem is constructed with `method="plex"` and `runcplex` is called —
contradicting the claim and the script's own error message ("Only cplex
solve method has been implemented."). This theorem evaluates the model at
that failing input. -/
theorem c1_method_plex_accepted :
    main ⟨"rd", 200, mkRat 4 5, "surfaceA", "plex", none, none⟩ =
      .ok ⟨.Problem "rd" 200 (mkRat 4 5) "surfaceA" "plex",
           stdParams "surfaceA" "rd" 200⟩ := by decide

/-- C2: for objective="dwc", budget=500.0, hrprop=0.95, landscape="lsX",
method="cplex", no secondary and no sconstrval, the run raises nothing,
constructs a standard `Problem` (not a `ParetoProblem`), and calls
`runcplex` with a dictionary whose `resultfilename` ends with
`"lsX_dwc_500.0.txt"`. -/
theorem c2_standard_end_to_end :
    main ⟨"dwc", 500, mkRat 19 20, "lsX", "cplex", none, none⟩ =
      .ok ⟨.Problem "dwc" 500 (mkRat 19 20) "lsX" "cplex",
           stdParams "lsX" "dwc" 500⟩ ∧
    (resultfileOf (main ⟨"dwc", 500, mkRat 19 20, "lsX", "cplex", none, none⟩)).map
        (strEndsW "lsX_dwc_500.0.txt") = some true := by decide

/-- C3: for every objective value outside {"rd", "pc", "dwc"}, the
adapter raises the objective validation error; the run result is an
error, so no problem object is constructed (`problemOf` is `none`) and
`runcplex` is never reached — in this model every validation error
short-circuits the run before construction and dispatch. -/
theorem c3_invalid_objective_rejected (a : Args)
    (h : a.objective ∉ (["rd", "pc", "dwc"] : List String)) :
    main a = .error "Invalid optimization objective requested. Please choose from: rd, pc, dwc."
      ∧ problemOf (main a) = none := by
  have hm : main a =
      .error "Invalid optimization objective requested. Please choose from: rd, pc, dwc." := by
    unfold main
    rw [if_pos h]
  exact ⟨hm, by rw [hm]; rfl⟩

theorem c3_invalid_objective_rejected_witness :
    ("xx" ∉ (["rd", "pc", "dwc"] : List String)) ∧
    (main ⟨"xx", 200, mkRat 4 5, "surfaceA", "cplex", none, none⟩ =
      .error "Invalid optimization objective requested. Please choose from: rd, pc, dwc."
      ∧ problemOf (main ⟨"xx", 200, mkRat 4 5, "surfaceA", "cplex", none, none⟩) = none) :=
  ⟨by decide, c3_invalid_objective_rejected _ (by decide)⟩

/-- C5 counterexample: the claim states every accepted run has
budget > 0. The code never validates budget: with budget = -5.0 and all
other fields valid, validation passes and a problem is constructed whose
budget is -5, which is not positive. -/
theorem c5_counterexample :
    problemOf (main ⟨"rd", -5, mkRat 4 5, "surfaceA", "cplex", none, none⟩) =
      some (.Problem "rd" (-5) (mkRat 4 5) "surfaceA" "cplex") ∧
    ¬ (0 : ℚ) < (-5 : ℚ) := by decide

/-- C5 amended: the budget is never validated; for *any* budget value
(positive or not), a run that satisfies the objective, hrprop and method
checks and has no secondary is accepted, and the constructed problem
carries the supplied budget unchanged. -/
theorem c5_budget_passthrough (obj land mth : String) (b hr : ℚ)
    (h1 : obj ∈ (["rd", "pc", "dwc"] : List String))
    (h2 : ¬ 1 < hr)
    (h3 : strHasSub mth "cplex" = true) :
    main ⟨obj, b, hr, land, mth, none, none⟩ =
      .ok ⟨.Problem obj b hr land mth, stdParams land obj b⟩ := by
  unfold main
  rw [if_neg (fun hc => hc h1), if_neg h2, if_neg (by simp [h3])]
  rfl

theorem c5_budget_passthrough_witness :
    (("rd" : String) ∈ (["rd", "pc", "dwc"] : List String)) ∧
    (¬ (1 : ℚ) < mkRat 4 5) ∧
    strHasSub "cplex" "cplex" = true ∧
    main ⟨"rd", -5, mkRat 4 5, "surfaceA", "cplex", none, none⟩ =
      .ok ⟨.Problem "rd" (-5) (mkRat 4 5) "surfaceA" "cplex",
           stdParams "surfaceA" "rd" (-5)⟩ :=
  ⟨by decide, by decide, rfl,
    c5_budget_passthrough "rd" "surfaceA" "cplex" (-5) (mkRat 4 5)
      (by decide) (by decide) rfl⟩

/-- C10: a valid secondary objective distinct from the primary, supplied
together with an explicit sconstrval of 0.0, is nevertheless rejected
with "Secondary optimization objective requires a constraint value.",
because line 41 (`elif not sconstrval`) tests float truthiness and 0.0 is
falsy. -/
theorem c10_zero_sconstrval_rejected (a : Args) (s : String)
    (hs : a.secondary = some s)
    (hmem : s ∈ (["rd", "pc", "dwc"] : List String))
    (hne : s ≠ a.objective)
    (hv : a.sconstrval = some 0)
    (h1 : a.objective ∈ (["rd", "pc", "dwc"] : List String))
    (h2 : ¬ 1 < a.hrprop)
    (h3 : strHasSub a.method "cplex" = true) :
    main a = .error "Secondary optimization objective requires a constraint value." := by
  obtain ⟨obj, b, hr, land, mth, sec, scv⟩ := a
  dsimp only at hs hv h1 h2 h3 hne
  subst hs hv
  have hsne : s ≠ "" := by
    have := hmem
    simp only [List.mem_cons, List.mem_singleton, List.not_mem_nil, or_false] at this
    rcases this with h | h | h <;> subst h <;> decide
  unfold main
  rw [if_neg (fun hc => hc h1), if_neg h2, if_neg (by simp [h3])]
  dsimp only
  rw [if_neg hsne, if_neg (fun hc => hc hmem), if_neg hne]
  rfl

/-- C8: when secondary is absent, sconstrval is never read: replacing it
by any value leaves the outcome identical, and an accepted run constructs
a standard (non-pareto) `Problem`. -/
theorem c8_sconstrval_ignored (a : Args) (v : Option ℚ) (h : a.secondary = none) :
    main { a with sconstrval := v } = main a ∧
    (∀ t, main a = .ok t →
      t.problem = .Problem a.objective a.budget a.hrprop a.landscape a.method) := by
  obtain ⟨obj, b, hr, land, mth, sec, scv⟩ := a
  dsimp only at h
  subst h
  refine ⟨rfl, ?_⟩
  intro t ht
  unfold main at ht
  dsimp only at ht
  rw [show dispatch ⟨obj, b, hr, land, mth, none, scv⟩ =
      .ok ⟨.Problem obj b hr land mth, stdParams land obj b⟩ from rfl] at ht
  split_ifs at ht
  injection ht with h2
  rw [← h2]

theorem c8_sconstrval_ignored_witness :
    ((⟨"rd", 200, mkRat 4 5, "surfaceA", "cplex", none, some 7⟩ : Args).secondary = none) ∧
    (main { (⟨"rd", 200, mkRat 4 5, "surfaceA", "cplex", none, some 7⟩ : Args) with
        sconstrval := some 99 } =
      main ⟨"rd", 200, mkRat 4 5, "surfaceA", "cplex", none, some 7⟩ ∧
    (∀ t, main ⟨"rd", 200, mkRat 4 5, "surfaceA", "cplex", none, some 7⟩ = .ok t →
      t.problem = .Problem "rd" 200 (mkRat 4 5) "surfaceA" "cplex")) :=
  ⟨rfl, c8_sconstrval_ignored ⟨"rd", 200, mkRat 4 5, "surfaceA", "cplex", none, some 7⟩
    (some 99) rfl⟩

/-- C9: the defensive missing-keys `ValueError` of lines 54-55 is
unreachable: both branches build the dictionary inline with all eight
required keys, so no run ever produces this error. -/
theorem c9_missing_keys_unreachable (a : Args) :
    main a ≠ .error "One or more runtimeparams missing. Need to provide:\ncplexpath\ntimelimit\nrandomseed\nworkmem\nlogfiledir\nlogfilename\nresultfilename\nworkdir." := by
  intro ht
  obtain ⟨obj, b, hr, land, mth, sec, scv⟩ := a
  cases sec with
  | none =>
    unfold main at ht
    dsimp only at ht
    obtain ⟨t, hd⟩ := dispatch_ok ⟨obj, b, hr, land, mth, none, scv⟩
    rw [hd] at ht
    split_ifs at ht
    all_goals first
      | exact Except.noConfusion ht
      | (injection ht with hmsg; exact absurd hmsg (by decide))
  | some s =>
    unfold main at ht
    dsimp only at ht
    obtain ⟨t, hd⟩ := dispatch_ok ⟨obj, b, hr, land, mth, some s, scv⟩
    rw [hd] at ht
    split_ifs at ht
    all_goals first
      | exact Except.noConfusion ht
      | (injection ht with hmsg; exact absurd hmsg (by decide))

theorem c9_missing_keys_unreachable_witness :
    main ⟨"rd", 200, mkRat 4 5, "surfaceA", "cplex", some "pc", some 50⟩ ≠
      .error "One or more runtimeparams missing. Need to provide:\ncplexpath\ntimelimit\nrandomseed\nworkmem\nlogfiledir\nlogfilename\nresultfilename\nworkdir." :=
  c9_missing_keys_unreachable ⟨"rd", 200, mkRat 4 5, "surfaceA", "cplex", some "pc", some 50⟩

theorem c10_zero_sconstrval_rejected_witness :
    ((⟨"rd", 200, mkRat 4 5, "surfaceA", "cplex", some "pc", some 0⟩ : Args).secondary
        = some "pc") ∧
    (("pc" : String) ∈ (["rd", "pc", "dwc"] : List String)) ∧
    ("pc" ≠ "rd") ∧
    main ⟨"rd", 200, mkRat 4 5, "surfaceA", "cplex", some "pc", some 0⟩ =
      .error "Secondary optimization objective requires a constraint value." :=
  ⟨rfl, by decide, by decide,
    c10_zero_sconstrval_rejected ⟨"rd", 200, mkRat 4 5, "surfaceA", "cplex", some "pc", some 0⟩
      "pc" rfl (by decide) (by decide) rfl (by decide) (by decide) rfl⟩

/-- The three secondary-related validation messages of lines 36-42. -/
def secondaryMsgs : List String :=
  ["Invalid secondary optimization objective requested. Please choose from: rd, pc, dwc.",
   "Primary and secondary optimization objectives should not be the same.",
   "Secondary optimization objective requires a constraint value."]

/-- C4 counterexample: the claim says that when a valid secondary
distinct from the objective is provided *with sconstrval given*, no
secondary-related error is raised. With sconstrval supplied explicitly as
0.0 the code nevertheless raises, because line 41 tests float truthiness,
refuting the claim at this input. -/
theorem c4_counterexample :
    (⟨"rd", 200, mkRat 4 5, "surfaceA", "cplex", some "pc", some 0⟩ : Args).secondary
        = some "pc" ∧
    (⟨"rd", 200, mkRat 4 5, "surfaceA", "cplex", some "pc", some 0⟩ : Args).sconstrval
        = some 0 ∧
    main ⟨"rd", 200, mkRat 4 5, "surfaceA", "cplex", some "pc", some 0⟩ =
      .error "Secondary optimization objective requires a constraint value." := by decide

/-- Amended C4 statement: with the earlier checks passing and a non-empty
secondary `s` supplied, a secondary-related error is raised iff
`s ∉ {rd,pc,dwc}`, or `s` equals the objective, or sconstrval is absent
*or equal to 0.0* (Python truthiness); otherwise the pareto path is
taken with no secondary-related error. -/
def c4Concl (a : Args) (s : String) : Prop :=
  ((∃ e ∈ secondaryMsgs, main a = .error e) ↔
    (s ∉ (["rd", "pc", "dwc"] : List String) ∨ s = a.objective ∨
      a.sconstrval = none ∨ a.sconstrval = some 0)) ∧
  ((s ∈ (["rd", "pc", "dwc"] : List String) ∧ s ≠ a.objective ∧
      a.sconstrval ≠ none ∧ a.sconstrval ≠ some 0) →
    main a = .ok ⟨.ParetoProblem a.objective a.budget a.hrprop a.landscape a.method
                    s a.sconstrval,
                  paretoParams a.landscape a.objective a.budget s a.sconstrval⟩)

/-- C4 (amended): if a non-empty secondary objective is provided (and the
earlier objective/hrprop/method checks pass), a secondary-related
validation error is raised exactly when the secondary is invalid, equals
the primary, or sconstrval is absent or 0.0; otherwise no
secondary-related error occurs and the pareto problem is constructed. -/
theorem c4_amended_secondary_validation (a : Args) (s : String)
    (hs : a.secondary = some s) (hne : s ≠ "")
    (h1 : a.objective ∈ (["rd", "pc", "dwc"] : List String))
    (h2 : ¬ 1 < a.hrprop)
    (h3 : strHasSub a.method "cplex" = true) :
    c4Concl a s := by
  obtain ⟨obj, b, hr, land, mth, sec, scv⟩ := a
  dsimp only at hs h1 h2 h3
  subst hs
  have hmain0 : main ⟨obj, b, hr, land, mth, some s, scv⟩ =
      (if s ∉ (["rd", "pc", "dwc"] : List String) then
        .error "Invalid secondary optimization objective requested. Please choose from: rd, pc, dwc."
      else if s = obj then
        .error "Primary and secondary optimization objectives should not be the same."
      else if (match scv with | none => true | some v => decide (v = 0)) = true then
        .error "Secondary optimization objective requires a constraint value."
      else dispatch ⟨obj, b, hr, land, mth, some s, scv⟩) := by
    unfold main
    dsimp only
    rw [if_neg (fun hc => hc h1), if_neg h2, if_neg (by simp [h3]), if_neg hne]
  unfold c4Concl
  dsimp only
  by_cases hA : s ∈ (["rd", "pc", "dwc"] : List String)
  · by_cases hB : s = obj
    · have hm : main ⟨obj, b, hr, land, mth, some s, scv⟩ =
          .error "Primary and secondary optimization objectives should not be the same." := by
        rw [hmain0, if_neg (fun hc => hc hA), if_pos hB]
      refine ⟨⟨fun _ => Or.inr (Or.inl hB), fun _ => ?_⟩, fun hh => absurd hB hh.2.1⟩
      exact ⟨"Primary and secondary optimization objectives should not be the same.",
        by decide, hm⟩
    · cases scv with
      | none =>
        have hm : main ⟨obj, b, hr, land, mth, some s, none⟩ =
            .error "Secondary optimization objective requires a constraint value." := by
          rw [hmain0, if_neg (fun hc => hc hA), if_neg hB]
          rfl
        refine ⟨⟨fun _ => Or.inr (Or.inr (Or.inl rfl)), fun _ => ?_⟩,
          fun hh => absurd rfl hh.2.2.1⟩
        exact ⟨"Secondary optimization objective requires a constraint value.",
          by decide, hm⟩
      | some v =>
        by_cases hv : v = 0
        · subst hv
          have hm : main ⟨obj, b, hr, land, mth, some s, some 0⟩ =
              .error "Secondary optimization objective requires a constraint value." := by
            rw [hmain0, if_neg (fun hc => hc hA), if_neg hB]
            rfl
          refine ⟨⟨fun _ => Or.inr (Or.inr (Or.inr rfl)), fun _ => ?_⟩,
            fun hh => absurd rfl hh.2.2.2⟩
          exact ⟨"Secondary optimization objective requires a constraint value.",
            by decide, hm⟩
        · have hm : main ⟨obj, b, hr, land, mth, some s, some v⟩ =
              .ok ⟨.ParetoProblem obj b hr land mth s (some v),
                   paretoParams land obj b s (some v)⟩ := by
            rw [hmain0, if_neg (fun hc => hc hA), if_neg hB, if_neg (by simp [hv])]
            unfold dispatch
            dsimp only
            rw [if_neg hne]
            rfl
          refine ⟨⟨?_, ?_⟩, fun _ => hm⟩
          · rintro ⟨e, _, he⟩
            rw [hm] at he
            exact Except.noConfusion he
          · rintro (h | h | h | h)
            · exact absurd hA h
            · exact absurd h hB
            · exact Option.noConfusion h
            · injection h with hv0
              exact absurd hv0 hv
  · have hm : main ⟨obj, b, hr, land, mth, some s, scv⟩ =
        .error "Invalid secondary optimization objective requested. Please choose from: rd, pc, dwc." := by
      rw [hmain0, if_pos hA]
    refine ⟨⟨fun _ => Or.inl hA, fun _ => ?_⟩, fun hh => absurd hh.1 hA⟩
    exact ⟨"Invalid secondary optimization objective requested. Please choose from: rd, pc, dwc.",
      by decide, hm⟩

theorem c4_amended_secondary_validation_witness :
    ((⟨"rd", 200, mkRat 4 5, "surfaceA", "cplex", some "xx", some 5⟩ : Args).secondary
        = some "xx") ∧
    ("xx" ≠ "") ∧
    (("rd" : String) ∈ (["rd", "pc", "dwc"] : List String)) ∧
    (¬ (1 : ℚ) < mkRat 4 5) ∧
    strHasSub "cplex" "cplex" = true ∧
    c4Concl ⟨"rd", 200, mkRat 4 5, "surfaceA", "cplex", some "xx", some 5⟩ "xx" :=
  ⟨rfl, by decide, by decide, by decide, rfl,
    c4_amended_secondary_validation
      ⟨"rd", 200, mkRat 4 5, "surfaceA", "cplex", some "xx", some 5⟩ "xx"
      rfl (by decide) (by decide) (by decide) rfl⟩

/-- C6 conclusion, for objective="rd", secondary="pc", sconstrval=50.0:
the pareto problem is constructed; the log/result file names passed to
`runcplex` are the pareto ones; they differ from the standard-path names
for the same primary fields; both embed "pareto", the secondary "pc" and
the constraint value "50.0"; and the result file lies under the
`pareto/` result directory. -/
def c6Concl (b hr : ℚ) (land : String) : Prop :=
  main ⟨"rd", b, hr, land, "cplex", some "pc", some 50⟩ =
    .ok ⟨.ParetoProblem "rd" b hr land "cplex" "pc" (some 50),
         paretoParams land "rd" b "pc" (some 50)⟩ ∧
  logfileOf (main ⟨"rd", b, hr, land, "cplex", some "pc", some 50⟩) =
    some (paretoLogName land "rd" b "pc" (some 50)) ∧
  resultfileOf (main ⟨"rd", b, hr, land, "cplex", some "pc", some 50⟩) =
    some (paretoResName land "rd" b "pc" (some 50)) ∧
  paretoLogName land "rd" b "pc" (some 50) ≠ stdLogName land "rd" b ∧
  paretoResName land "rd" b "pc" (some 50) ≠ stdResName land "rd" b ∧
  strHasSub "pareto" (paretoLogName land "rd" b "pc" (some 50)) = true ∧
  strHasSub "pareto" (paretoResName land "rd" b "pc" (some 50)) = true ∧
  strHasSub "pc" (paretoLogName land "rd" b "pc" (some 50)) = true ∧
  strHasSub "pc" (paretoResName land "rd" b "pc" (some 50)) = true ∧
  strHasSub "50.0" (paretoLogName land "rd" b "pc" (some 50)) = true ∧
  strHasSub "50.0" (paretoResName land "rd" b "pc" (some 50)) = true ∧
  strLeadsW resParetoDir (paretoResName land "rd" b "pc" (some 50)) = true

/-- C6: for valid inputs with objective="rd", secondary="pc",
sconstrval=50.0 (any budget, hrprop ≤ 1, landscape, method="cplex"), the
adapter constructs a `ParetoProblem` and the result/log paths differ from
the standard ones, embed "pareto", the secondary objective and the
constraint value, with the result file under the pareto/ subdirectory. -/
theorem c6_pareto_paths (b hr : ℚ) (land : String) (h2 : ¬ 1 < hr) :
    c6Concl b hr land := by
  have hmain : main ⟨"rd", b, hr, land, "cplex", some "pc", some 50⟩ =
      .ok ⟨.ParetoProblem "rd" b hr land "cplex" "pc" (some 50),
           paretoParams land "rd" b "pc" (some 50)⟩ := by
    unfold main
    dsimp only
    rw [if_neg (by decide), if_neg h2, if_neg (by decide)]
    rfl
  unfold c6Concl
  refine ⟨hmain, ?_, ?_, ?_, ?_, ?_, ?_, ?_, ?_, ?_, ?_, ?_⟩
  · rw [hmain]; rfl
  · rw [hmain]; rfl
  · intro heq
    have hlen := congrArg (fun s => s.data.length) heq
    simp only [paretoLogName, stdLogName, strDataApp, List.length_append,
      show pyOptFloatStr (some 50) = "50.0" from rfl,
      show ("_" : String).data.length = 1 from rfl,
      show ("_pareto_" : String).data.length = 8 from rfl,
      show ("pc" : String).data.length = 2 from rfl,
      show ("50.0" : String).data.length = 4 from rfl] at hlen
    omega
  · intro heq
    have hlen := congrArg (fun s => s.data.length) heq
    simp only [paretoResName, stdResName, strDataApp, List.length_append,
      show pyOptFloatStr (some 50) = "50.0" from rfl,
      show resParetoDir.data.length = resBudgetDir.data.length from rfl,
      show ("_" : String).data.length = 1 from rfl,
      show ("pc" : String).data.length = 2 from rfl,
      show ("50.0" : String).data.length = 4 from rfl] at hlen
    omega
  · unfold strHasSub paretoLogName
    rw [show pyOptFloatStr (some 50) = "50.0" from rfl]
    simp only [strDataApp, List.append_assoc]
    apply hasSubL_appL
    apply hasSubL_appL
    apply hasSubL_appL
    apply hasSubL_appL
    apply hasSubL_appL
    apply hasSubL_appL
    apply hasSubL_appR
    decide
  · unfold strHasSub paretoResName
    rw [show pyOptFloatStr (some 50) = "50.0" from rfl]
    simp only [strDataApp, List.append_assoc]
    apply hasSubL_appR
    decide
  · unfold strHasSub paretoLogName
    rw [show pyOptFloatStr (some 50) = "50.0" from rfl]
    simp only [strDataApp, List.append_assoc]
    apply hasSubL_appL
    apply hasSubL_appL
    apply hasSubL_appL
    apply hasSubL_appL
    apply hasSubL_appL
    apply hasSubL_appL
    apply hasSubL_appL
    apply hasSubL_appR
    decide
  · unfold strHasSub paretoResName
    rw [show pyOptFloatStr (some 50) = "50.0" from rfl]
    simp only [strDataApp, List.append_assoc]
    apply hasSubL_appL
    apply hasSubL_appL
    apply hasSubL_appL
    apply hasSubL_appL
    apply hasSubL_appL
    apply hasSubL_appL
    apply hasSubL_appL
    apply hasSubL_appR
    decide
  · unfold strHasSub paretoLogName
    rw [show pyOptFloatStr (some 50) = "50.0" from rfl]
    simp only [strDataApp, List.append_assoc]
    apply hasSubL_appL
    apply hasSubL_appL
    apply hasSubL_appL
    apply hasSubL_appL
    apply hasSubL_appL
    apply hasSubL_appL
    apply hasSubL_appL
    apply hasSubL_appL
    apply hasSubL_appL
    apply hasSubL_appR
    decide
  · unfold strHasSub paretoResName
    rw [show pyOptFloatStr (some 50) = "50.0" from rfl]
    simp only [strDataApp, List.append_assoc]
    apply hasSubL_appL
    apply hasSubL_appL
    apply hasSubL_appL
    apply hasSubL_appL
    apply hasSubL_appL
    apply hasSubL_appL
    apply hasSubL_appL
    apply hasSubL_appL
    apply hasSubL_appL
    apply hasSubL_appR
    decide
  · unfold strLeadsW paretoResName
    simp only [strDataApp, List.append_assoc]
    exact leadsWith_self_app _ _

theorem c6_pareto_paths_witness :
    (¬ (1 : ℚ) < mkRat 19 20) ∧ c6Concl 500 (mkRat 19 20) "surfaceA" :=
  ⟨by decide, c6_pareto_paths 500 (mkRat 19 20) "surfaceA" (by decide)⟩

/-- C7 conclusion: the standard path is taken and the dictionary passed
to `runcplex` has exactly the eight required keys, in order, each bound
to a non-empty value. -/
def c7Concl (obj land : String) (b hr : ℚ) : Prop :=
  main ⟨obj, b, hr, land, "cplex", none, none⟩ =
    .ok ⟨.Problem obj b hr land "cplex", stdParams land obj b⟩ ∧
  (stdParams land obj b).map Prod.fst = requiredKeys ∧
  ∀ kv ∈ stdParams land obj b, rtNonEmpty kv.2

/-- C7: for every valid input without a secondary objective, the adapter
takes the standard-problem path and the RuntimeParams mapping passed to
`runcplex` contains exactly the eight keys cplexpath, timelimit,
randomseed, workmem, logfiledir, logfilename, resultfilename, workdir,
each bound to a non-empty value. -/
theorem c7_std_runtimeparams (obj land : String) (b hr : ℚ)
    (h1 : obj ∈ (["rd", "pc", "dwc"] : List String))
    (h2 : ¬ 1 < hr) :
    c7Concl obj land b hr := by
  refine ⟨?_, rfl, ?_⟩
  · unfold main
    dsimp only
    rw [if_neg (fun hc => hc h1), if_neg h2, if_neg (by decide)]
    rfl
  · intro kv hkv
    simp only [stdParams, List.mem_cons, List.not_mem_nil, or_false] at hkv
    rcases hkv with h | h | h | h | h | h | h | h
    all_goals subst h
    · show ("/opt/ibm/ILOG/CPLEX_Studio126/cplex/bin/x86-64_linux/cplex" : String) ≠ ""
      decide
    · trivial
    · trivial
    · trivial
    · show logfileDir ≠ ""
      decide
    · show stdLogName land obj b ≠ ""
      unfold stdLogName
      apply strNeEmptyApp
      apply strNeEmptyApp
      apply strNeEmptyApp
      apply strNeEmptyApp
      apply strNeEmptyApp
      apply strNeEmptyApp
      decide
    · show stdResName land obj b ≠ ""
      unfold stdResName
      apply strNeEmptyApp
      apply strNeEmptyApp
      apply strNeEmptyApp
      apply strNeEmptyApp
      apply strNeEmptyApp
      apply strNeEmptyApp
      decide
    · show ("/home/fs01/ag2373/LandscapeConnectivity/SCROPT/output/lpandsolfiles/" : String) ≠ ""
      decide

theorem c7_std_runtimeparams_witness :
    (("rd" : String) ∈ (["rd", "pc", "dwc"] : List String)) ∧
    (¬ (1 : ℚ) < mkRat 4 5) ∧
    c7Concl "rd" "surfaceA" 200 (mkRat 4 5) :=
  ⟨by decide, by decide, c7_std_runtimeparams "rd" "surfaceA" 200 (mkRat 4 5)
    (by decide) (by decide)⟩

end Scropt
